import Mathlib

/-!
Verification of the tower-installer capability gate and deployment
sequencer, shallowly embedded from `src/main.rs`.

Machine integers are modelled as `Nat` with explicit `% 2 ^ w` at the
points where the Rust code performs a narrowing cast (`as u8`, `as u64`).
External processes (the shell, docker, yarn, node) are modelled by
oracles mapping an invocation's command string to its outcome.
-/

namespace Tower

/-- The three severity colors produced by `get_color` in `src/main.rs`.
`RED` renders the BelowRequired classification, `YELLOW` BelowExpected,
`GREEN` MeetsExpected. -/
inductive Color where
  | RED
  | YELLOW
  | GREEN
deriving DecidableEq, Repr

/-- `get_color` from `src/main.rs` lines 21-29: the threshold classifier.
Arguments arrive as `u64` values; at every call site the Rust casts are
exact or made explicit by the caller, so plain `Nat` comparison is the
faithful translation. -/
def get_color (actual required expected : Nat) : Color :=
  if actual < required then Color.RED
  else if actual < expected then Color.YELLOW
  else Color.GREEN

/-- Live host facts read by the gate (`sysinfo` probes in
`check_hardware_requirement`): number of logical processors
(`system.get_processors().len()`, a `usize`), total memory in KiB
(`system.get_total_memory()`), the per-disk available byte counts
(`system.get_disks()`), and TCP-bind availability per port
(`is_port_available`). -/
structure Host where
  nProcessors : Nat
  totalMemoryKiB : Nat
  diskAvailable : List Nat
  portAvailable : Nat → Bool

/-- `required_requirement.ports` in `src/main.rs` line 44. -/
def requiredPorts : List Nat := [8811]

/-- `required_requirement.memory`: 4 GiB in bytes. -/
def requiredMemoryBytes : Nat := 4294967296

/-- `expeceted_requirement.memory`: 8 GiB in bytes. -/
def expectedMemoryBytes : Nat := 8589934592

/-- `required_requirement.storage_space`: 40 GiB in bytes. -/
def requiredStorageBytes : Nat := 42949672960

/-- `expeceted_requirement.storage_space`: 100 GiB in bytes. -/
def expectedStorageBytes : Nat := 107374182400

/-- `let actual_cpu_cores = system.get_processors().len() as u8;`
(line 59): the `usize → u8` cast truncates to 8 bits. -/
def actual_cpu_cores (h : Host) : Nat := h.nProcessors % 256

/-- `let actual_memory = Byte::from_unit(system.get_total_memory() as f64,
ByteUnit::KiB)` (line 73): KiB to bytes.  The intermediate `f64` is exact
for any total below 2^53 KiB, far beyond physical memory sizes, so the
embedding multiplies exactly. -/
def actual_memory (h : Host) : Nat := h.totalMemoryKiB * 1024

/-- `let remained_storage_space = Byte::from_bytes(system.get_disks()
.iter().fold(0, |sum, disk| sum + disk.get_available_space() as u128))`
(lines 97-102): the sum of available space over every mounted volume. -/
def remained_storage_space (h : Host) : Nat :=
  h.diskAvailable.foldl (fun sum d => sum + d) 0

/-- `unavailable_ports` (lines 130-135): the required ports whose TCP
bind probe fails. -/
def unavailable_ports (h : Host) : List Nat :=
  requiredPorts.filter (fun p => !h.portAvailable p)

/-- One row of the comparison table built in `check_hardware_requirement`.
The numeric-to-text formatting done by `byte_unit::get_appropriate_unit`
and `prettytable` is presentation only and abstracted away; each row
carries the quantities displayed and the classification color computed
by `get_color`. -/
inductive Row where
  | header
  | metric (label : String) (required expected actual : Nat) (c : Color)
  | ports (required unavailable : List Nat) (c : Color)
deriving DecidableEq, Repr

/-- The full report table, in the order the source adds its rows
(lines 57-161): header, cpu cores, memory, storage space, ports.
The memory and storage color calls cast `u128` byte counts to `u64`
(`get_bytes() as u64`), hence the `% 2 ^ 64`; the required/expected
constants are far below `2 ^ 64` so their casts are exact. -/
def reportRows (h : Host) : List Row :=
  [Row.header,
   Row.metric "cpu cores" 2 4 (actual_cpu_cores h)
     (get_color (actual_cpu_cores h) 2 4),
   Row.metric "memory" requiredMemoryBytes expectedMemoryBytes (actual_memory h)
     (get_color (actual_memory h % 2 ^ 64) requiredMemoryBytes expectedMemoryBytes),
   Row.metric "storage space" requiredStorageBytes expectedStorageBytes
     (remained_storage_space h)
     (get_color (remained_storage_space h % 2 ^ 64) requiredStorageBytes
       expectedStorageBytes),
   Row.ports requiredPorts (unavailable_ports h)
     (if (unavailable_ports h).length = 0 then Color.GREEN else Color.RED)]

/-- Observable actions of `check_hardware_requirement`, in program order:
`table.printstd()` and the `panic!` calls. -/
inductive Event where
  | printTable (rows : List Row)
  | fail (msg : String)
deriving DecidableEq, Repr

/-- `check_hardware_requirement` from `src/main.rs` lines 38-181 as an
event trace: the table is printed first (line 163), then, unless `force`
is set (lines 165-167), the four hard-floor checks run in source order
(lines 169-180), the first violated one panicking with its message. -/
def check_hardware_requirement (force : Bool) (h : Host) : List Event :=
  Event.printTable (reportRows h) ::
    (if force then []
     else if actual_cpu_cores h < 2 then [Event.fail "CPU cores not enough."]
     else if actual_memory h < requiredMemoryBytes then [Event.fail "Memory not enough."]
     else if remained_storage_space h < requiredStorageBytes then
       [Event.fail "Storage space not enough."]
     else if (unavailable_ports h).length > 0 then
       [Event.fail "Some ports are not available."]
     else [])

/-! ## Deployment sequencer (`start_from_source`, lines 227-308) -/

/-- `docker_compose_file` (lines 228-232): `source_dir.join("packages/server/docker-compose.yml")`. -/
def docker_compose_file (source_dir : String) : String :=
  source_dir ++ "/packages/server/docker-compose.yml"

/-- `docker_compose_arg` (line 233). -/
def docker_compose_arg (source_dir : String) : String :=
  "docker-compose -p tower -f " ++ docker_compose_file source_dir ++ " up -d"

/-- `yarn_arg` (lines 251-254). -/
def yarn_arg (source_dir : String) : String :=
  "cd " ++ source_dir ++ " && yarn && yarn lerna run prepublish"

/-- `server_dir` (line 268): `source_dir.join("packages/server")`. -/
def server_dir (source_dir : String) : String :=
  source_dir ++ "/packages/server"

/-- `setup_script` (lines 269-273): `server_dir.join("scripts/setup.js")`. -/
def setup_script (source_dir : String) : String :=
  server_dir source_dir ++ "/scripts/setup.js"

/-- `reset_arg` (lines 274-278): the destructive reset sub-step, present
only under `--force`, an empty fragment otherwise. -/
def reset_arg (force : Bool) : String :=
  if force then "&& yarn prisma reset -f" else ""

/-- `setup_args` (lines 279-291): the migrate-and-setup shell line,
fragments joined with a single space. -/
def setup_args (source_dir : String) (force : Bool) : String :=
  String.intercalate " "
    ["cd", server_dir source_dir, "&& yarn prisma deploy", reset_arg force,
     "&& node", setup_script source_dir]

/-- The three external shell invocations `start_from_source` performs, in
source order: compose-up (lines 234-249), yarn build (lines 255-265),
the migrate-and-setup chain (lines 292-307). -/
def fromSourceSteps (source_dir : String) (force : Bool) : List String :=
  [docker_compose_arg source_dir, yarn_arg source_dir,
   setup_args source_dir force]

/-- Runs a step list against an oracle giving each invocation's outcome
(`none` = spawn error, `some false` = nonzero exit, `some true` =
success), mirroring the `expect`/`panic!` chain of `start_from_source`:
the first non-success aborts the run.  Returns the invoked steps in
order and whether the whole chain succeeded. -/
def runSteps (exec : String → Option Bool) : List String → List String × Bool
  | [] => ([], true)
  | s :: rest =>
    match exec s with
    | some true =>
      let r := runSteps exec rest
      (s :: r.1, r.2)
    | _ => ([s], false)

/-- The sub-commands of the migrate-and-setup line, in the order the
source splices them into `setup_args` with `&&` separators: change into
the server directory, run the data-store migration, optionally the
destructive reset, then the setup script. -/
def setupSubSteps (source_dir : String) (force : Bool) : List String :=
  ["cd " ++ server_dir source_dir, "yarn prisma deploy"] ++
    (if force then ["yarn prisma reset -f"] else []) ++
    ["node " ++ setup_script source_dir]

/-- Modelled from the spec: the POSIX shell executing a `&&`-chain (an
external collaborator invoked only through its process contract) runs
the sub-commands in order and a failure anywhere short-circuits the
remainder.  Returns the executed sub-commands and the chain's success. -/
def runShellChain (subExec : String → Bool) : List String → List String × Bool
  | [] => ([], true)
  | s :: rest =>
    if subExec s then
      let r := runShellChain subExec rest
      (s :: r.1, r.2)
    else ([s], false)

/-- The exact character content of the composed migrate-and-setup line,
with the source directory spliced in twice (once for the server
directory, once for the setup script). -/
theorem setup_args_data (source_dir : String) (force : Bool) :
    (setup_args source_dir force).data =
      "cd".data ++ " ".data ++ source_dir.data ++ "/packages/server".data
        ++ " ".data ++ "&& yarn prisma deploy".data ++ " ".data
        ++ (reset_arg force).data ++ " ".data ++ "&& node".data ++ " ".data
        ++ source_dir.data
        ++ "/packages/server/scripts/setup.js".data := by
  simp [setup_args, String.intercalate, String.intercalate.go, server_dir,
    setup_script, String.data_append, List.append_assoc]

/-- With `--force` the composed line is exactly the `&&`-join of the
four sub-commands of `setupSubSteps`, so the structural decomposition is
faithful to the string the source hands to the shell. -/
theorem setup_args_true_join (source_dir : String) :
    setup_args source_dir true =
      String.intercalate " && " (setupSubSteps source_dir true) := by
  apply String.ext
  rw [setup_args_data]
  simp [setupSubSteps, String.intercalate, String.intercalate.go, server_dir,
    setup_script, reset_arg, String.data_append, List.append_assoc]

/-- Without `--force` the composed line is the `&&`-join of the three
sub-commands of `setupSubSteps` except that the empty reset fragment
leaves a second blank before the `&&` of the setup sub-command — blank
padding the shell ignores. -/
theorem setup_args_false_join (source_dir : String) :
    setup_args source_dir false =
      "cd " ++ server_dir source_dir
        ++ " && yarn prisma deploy  && node " ++ setup_script source_dir := by
  apply String.ext
  rw [setup_args_data]
  simp [server_dir, setup_script, reset_arg, String.data_append,
    List.append_assoc]

/-- Exact string containment: `needle` occurs contiguously inside `hay`. -/
def strContains (hay needle : String) : Prop :=
  ∃ pre post : List Char, hay.data = pre ++ needle.data ++ post

/-! ## Image presence check (`check_images`, lines 310-344) -/

/-- The fixed ordered list of required image identifiers (line 311-316):
application server, migration tool, data store, edge proxy. -/
def images : List String :=
  ["tower:0.2.3", "prismagraphql/prisma:1.34", "postgres:10.3",
   "openresty/openresty:alpine"]

/-- `format!("docker inspect --type=image {}", &image)` (line 318). -/
def inspect_command (image : String) : String :=
  "docker inspect --type=image " ++ image

/-- `image_exists` (lines 333-336): the probe outcome collapses to a
boolean, a spawn error (`Err`) counting as missing. -/
def image_exists (probe : String → Option Bool) (image : String) : Bool :=
  match probe (inspect_command image) with
  | some s => s
  | none => false

/-- The loop body of `check_images` (lines 317-343) over a list of
image names: returns the final boolean, the list of images actually
probed in order, and the lines printed. -/
def check_imagesAux (probe : String → Option Bool) :
    List String → Bool × List String × List String
  | [] => (true, [], ["all image exists"])
  | image :: rest =>
    if image_exists probe image then
      let r := check_imagesAux probe rest
      (r.1, image :: r.2.1, r.2.2)
    else
      (false, [image], [image ++ " image is missing"])

/-- `check_images` (lines 310-344). -/
def check_images (probe : String → Option Bool) :
    Bool × List String × List String :=
  check_imagesAux probe images

/-! ## CLI dispatch for `deploy` (`main`, lines 482-515) -/

/-- `format!("docker load --input {}", tar_dir)` (line 347), the single
image-load invocation of `load_images`. -/
def docker_load_arg (tar_dir : String) : String :=
  "docker load --input " ++ tar_dir

/-- `PathBuf::is_absolute` on a Unix path: it begins with `/`. -/
def is_absolute (p : String) : Bool :=
  match p.data with
  | '/' :: _ => true
  | _ => false

/-- `env::current_dir().join(p)` for a relative `p`. -/
def join_path (cwd p : String) : String := cwd ++ "/" ++ p

/-- The externally visible actions of the deploy arm of `main` after the
pre-flight checks: one image-load invocation (`load_images`), the
from-source sequencer, or the piped-compose published-image start. -/
inductive DeployEvent where
  | loadImages (path : String)
  | startFromSource (dir : String) (force : Bool)
  | startFromImage
deriving DecidableEq, Repr

/-- Outcome of dispatching the deploy subcommand: either the CLI layer
rejects the invocation as a usage error, or the run proceeds with the
listed actions. -/
inductive DeployOutcome where
  | usageError
  | run (events : List DeployEvent)
deriving DecidableEq, Repr

/-- The deploy arm of `main` (lines 491-514), after the hardware, docker
and image checks.  `clap` declares `--from-source` and `--from-tar` as
two independent optional arguments with no conflict rule (lines
463-479), so every combination parses; the dispatch then tries
`source_dir` first and returns (lines 491-502), tries `tar_dir` next —
resolving and loading the archive only inside the `!is_absolute` branch
(lines 503-513) — and finally always starts from the published images
(line 514).  `canon` is the OS path canonicalization consulted by
`env::current_dir().join(..).canonicalize()`. -/
def deploy_dispatch (source_dir tar_dir : Option String) (force : Bool)
    (cwd : String) (canon : String → String) : DeployOutcome :=
  match source_dir with
  | some d =>
    DeployOutcome.run
      [DeployEvent.startFromSource
        (if is_absolute d then d else canon (join_path cwd d)) force]
  | none =>
    match tar_dir with
    | some t =>
      if is_absolute t then DeployOutcome.run [DeployEvent.startFromImage]
      else
        DeployOutcome.run
          [DeployEvent.loadImages (canon (join_path cwd t)),
           DeployEvent.startFromImage]
    | none => DeployOutcome.run [DeployEvent.startFromImage]

end Tower

namespace Tower

/-- C1: the threshold classifier is a pure three-way comparison:
`actual < required` yields RED (BelowRequired); `required ≤ actual <
expected` yields YELLOW (BelowExpected); `actual ≥ expected` yields GREEN
(MeetsExpected), the last under the spec's authoring invariant
`required ≤ expected`, which the classification logic assumes.  At the
boundaries: `actual = required` yields YELLOW whenever
`required < expected`, and `actual = expected` yields GREEN whenever
`required ≤ expected`. -/
theorem classifier_three_way (a r e : Nat) :
    (a < r → get_color a r e = Color.RED) ∧
    (r ≤ a → a < e → get_color a r e = Color.YELLOW) ∧
    (r ≤ e → e ≤ a → get_color a r e = Color.GREEN) ∧
    (r < e → get_color r r e = Color.YELLOW) ∧
    (r ≤ e → get_color e r e = Color.GREEN) := by
  refine ⟨?_, ?_, ?_, ?_, ?_⟩ <;> intros <;> unfold get_color <;> split_ifs <;>
    first | rfl | omega

/-- Witness for `classifier_three_way` at (3, 2, 4), (1, 2, 4), (4, 2, 4). -/
theorem classifier_three_way_witness :
    get_color 1 2 4 = Color.RED ∧ get_color 2 2 4 = Color.YELLOW ∧
      get_color 4 2 4 = Color.GREEN :=
  ⟨(classifier_three_way 1 2 4).1 (by decide),
   (classifier_three_way 2 2 4).2.2.2.1 (by decide),
   (classifier_three_way 4 2 4).2.2.1 (by decide) (by decide)⟩

/-- C2: with `force` set the gate prints the report and raises nothing,
whatever the probed host values are. -/
theorem gate_force_never_fails (h : Host) :
    check_hardware_requirement true h = [Event.printTable (reportRows h)] ∧
      ∀ m, Event.fail m ∉ check_hardware_requirement true h := by
  refine ⟨rfl, ?_⟩
  intro m hm
  simp [check_hardware_requirement] at hm

/-- C3: without `force`, the gate fails with the message of the first
failing metric in the fixed source order cpu, memory, storage, ports;
when nothing fails it only prints the report. -/
theorem gate_first_failure_order (h : Host) :
    (actual_cpu_cores h < 2 →
      check_hardware_requirement false h =
        [Event.printTable (reportRows h), Event.fail "CPU cores not enough."]) ∧
    (¬ actual_cpu_cores h < 2 → actual_memory h < requiredMemoryBytes →
      check_hardware_requirement false h =
        [Event.printTable (reportRows h), Event.fail "Memory not enough."]) ∧
    (¬ actual_cpu_cores h < 2 → ¬ actual_memory h < requiredMemoryBytes →
      remained_storage_space h < requiredStorageBytes →
      check_hardware_requirement false h =
        [Event.printTable (reportRows h), Event.fail "Storage space not enough."]) ∧
    (¬ actual_cpu_cores h < 2 → ¬ actual_memory h < requiredMemoryBytes →
      ¬ remained_storage_space h < requiredStorageBytes →
      unavailable_ports h ≠ [] →
      check_hardware_requirement false h =
        [Event.printTable (reportRows h),
         Event.fail "Some ports are not available."]) ∧
    (¬ actual_cpu_cores h < 2 → ¬ actual_memory h < requiredMemoryBytes →
      ¬ remained_storage_space h < requiredStorageBytes →
      unavailable_ports h = [] →
      check_hardware_requirement false h = [Event.printTable (reportRows h)]) := by
  refine ⟨?_, ?_, ?_, ?_, ?_⟩ <;> intros <;>
    simp [check_hardware_requirement, List.length_pos, *]

/-- Witness for `gate_first_failure_order`: a host with a single logical
processor fails the gate as cpu-insufficient. -/
theorem gate_first_failure_order_witness :
    check_hardware_requirement false ⟨1, 2 ^ 32, [2 ^ 40], fun _ => true⟩ =
      [Event.printTable (reportRows ⟨1, 2 ^ 32, [2 ^ 40], fun _ => true⟩),
       Event.fail "CPU cores not enough."] :=
  (gate_first_failure_order _).1 (by decide)

/-- C4: on every run the first emitted event is the print of the full
report (header plus the four metric rows, cpu, memory, storage, ports);
any failure event comes strictly after it, and the report is printed
also on success or under force. -/
theorem gate_prints_report_first (force : Bool) (h : Host) :
    (check_hardware_requirement force h).head? =
        some (Event.printTable (reportRows h)) ∧
    Event.printTable (reportRows h) ∈ check_hardware_requirement force h ∧
    (∀ (i : Nat) (m : String),
        (check_hardware_requirement force h)[i]? = some (Event.fail m) →
        ∃ j : Nat, j < i ∧ (check_hardware_requirement force h)[j]? =
          some (Event.printTable (reportRows h))) ∧
    (∃ cc mc sc pc, reportRows h =
      [Row.header,
       Row.metric "cpu cores" 2 4 (actual_cpu_cores h) cc,
       Row.metric "memory" requiredMemoryBytes expectedMemoryBytes
         (actual_memory h) mc,
       Row.metric "storage space" requiredStorageBytes expectedStorageBytes
         (remained_storage_space h) sc,
       Row.ports requiredPorts (unavailable_ports h) pc]) := by
  refine ⟨rfl, List.mem_cons_self _ _, ?_, ⟨_, _, _, _, rfl⟩⟩
  intro i m him
  match i with
  | 0 => simp [check_hardware_requirement] at him
  | i + 1 => exact ⟨0, Nat.succ_pos i, by simp [check_hardware_requirement]⟩

/-- Witness for `gate_prints_report_first`: on a failing host the fail
event at index 1 is preceded by the report print at index 0. -/
theorem gate_prints_report_first_witness :
    ∃ j : Nat, j < 1 ∧
      (check_hardware_requirement false ⟨1, 0, [], fun _ => true⟩)[j]? =
        some (Event.printTable (reportRows ⟨1, 0, [], fun _ => true⟩)) :=
  (gate_prints_report_first false ⟨1, 0, [], fun _ => true⟩).2.2.1 1
    "CPU cores not enough." (by decide)

/-- C10: the probed logical-processor count reaches the gate through a
`usize → u8` cast, so both the report row and the hard-floor check see
`n % 256`; a host reporting exactly 256 processors is shown as having 0
cores and, without force, fails the gate as cpu-insufficient whatever
its other metrics are. -/
theorem cpu_count_truncated (h : Host) :
    ((reportRows h)[1]? = some (Row.metric "cpu cores" 2 4
        (h.nProcessors % 256) (get_color (h.nProcessors % 256) 2 4))) ∧
    (h.nProcessors = 256 →
      check_hardware_requirement false h =
        [Event.printTable (reportRows h), Event.fail "CPU cores not enough."] ∧
      (reportRows h)[1]? = some (Row.metric "cpu cores" 2 4 0 Color.RED)) := by
  refine ⟨rfl, fun h256 => ?_⟩
  have hz : actual_cpu_cores h = 0 := by simp [actual_cpu_cores, h256]
  constructor
  · simp [check_hardware_requirement, hz]
  · simp [reportRows, hz, get_color]

/-- Witness for `cpu_count_truncated` at a host with 256 processors. -/
theorem cpu_count_truncated_witness :
    check_hardware_requirement false ⟨256, 2 ^ 32, [2 ^ 40], fun _ => true⟩ =
      [Event.printTable (reportRows ⟨256, 2 ^ 32, [2 ^ 40], fun _ => true⟩),
       Event.fail "CPU cores not enough."] :=
  ((cpu_count_truncated ⟨256, 2 ^ 32, [2 ^ 40], fun _ => true⟩).2 rfl).1

/-- A setup-script sub-command never coincides with the cd sub-command. -/
theorem node_ne_cd (s t : String) : ("node " ++ s) ≠ ("cd " ++ t) := by
  intro hEq
  have h' := congrArg String.data hEq
  simp [String.data_append] at h'

/-- A setup-script sub-command never coincides with the migration one. -/
theorem node_ne_deploy (s : String) :
    ("node " ++ s) ≠ "yarn prisma deploy" := by
  intro hEq
  have h' := congrArg String.data hEq
  simp [String.data_append] at h'

/-- C5: the FromSource sequencer never proceeds past a failed step: a
compose-up failure leaves the build and setup invocations unrun, a build
failure leaves the setup invocation unrun, and, inside the composed
migrate-and-setup `&&`-chain, a nonzero exit of the data-store migration
sub-command means the setup script sub-command is never executed. -/
theorem sequencer_fail_fast (source_dir : String) (force : Bool)
    (exec : String → Option Bool) (subExec : String → Bool) :
    (exec (docker_compose_arg source_dir) ≠ some true →
      runSteps exec (fromSourceSteps source_dir force) =
        ([docker_compose_arg source_dir], false)) ∧
    (exec (docker_compose_arg source_dir) = some true →
      exec (yarn_arg source_dir) ≠ some true →
      runSteps exec (fromSourceSteps source_dir force) =
        ([docker_compose_arg source_dir, yarn_arg source_dir], false)) ∧
    (subExec "yarn prisma deploy" = false →
      ("node " ++ setup_script source_dir) ∉
        (runShellChain subExec (setupSubSteps source_dir force)).1) := by
  refine ⟨?_, ?_, ?_⟩
  · intro h1
    cases hx : exec (docker_compose_arg source_dir) with
    | none => simp [fromSourceSteps, runSteps, hx]
    | some b =>
      cases b with
      | false => simp [fromSourceSteps, runSteps, hx]
      | true => exact absurd hx h1
  · intro h1 h2
    cases hy : exec (yarn_arg source_dir) with
    | none => simp [fromSourceSteps, runSteps, h1, hy]
    | some b =>
      cases b with
      | false => simp [fromSourceSteps, runSteps, h1, hy]
      | true => exact absurd hy h2
  · intro hdep
    cases hcd : subExec ("cd " ++ server_dir source_dir) <;> cases force <;>
      simp [setupSubSteps, runShellChain, hcd, hdep,
        node_ne_cd (setup_script source_dir) (server_dir source_dir),
        node_ne_deploy (setup_script source_dir)]

/-- Witness for `sequencer_fail_fast`: with every external invocation
failing, only the compose-up step is invoked and the setup script
sub-command is not executed. -/
theorem sequencer_fail_fast_witness :
    runSteps (fun _ => some false) (fromSourceSteps "/src" true) =
      ([docker_compose_arg "/src"], false) ∧
    ("node " ++ setup_script "/src") ∉
      (runShellChain (fun _ => false) (setupSubSteps "/src" true)).1 :=
  ⟨(sequencer_fail_fast "/src" true (fun _ => some false) (fun _ => false)).1
      (by simp),
   (sequencer_fail_fast "/src" true (fun _ => some false)
      (fun _ => false)).2.2 rfl⟩

/-- C6: the composed migrate-and-setup shell line contains the
destructive reset invocation `yarn prisma reset -f` exactly when the
force flag is set; without force it is absent, provided the source
directory path itself is dash-free (a path containing the literal could
smuggle the text in from outside the program). -/
theorem reset_substep_iff_force (source_dir : String) :
    strContains (setup_args source_dir true) "yarn prisma reset -f" ∧
    ('-' ∉ source_dir.data →
      ¬ strContains (setup_args source_dir false) "yarn prisma reset -f") := by
  constructor
  · refine ⟨"cd".data ++ " ".data ++ source_dir.data ++ "/packages/server".data
        ++ " ".data ++ "&& yarn prisma deploy".data ++ " ".data ++ "&& ".data,
      " ".data ++ "&& node".data ++ " ".data ++ source_dir.data
        ++ "/packages/server/scripts/setup.js".data, ?_⟩
    rw [setup_args_data]
    simp [reset_arg, List.append_assoc]
  · intro hdash hcontra
    obtain ⟨pre, post, hd⟩ := hcontra
    have hmem : '-' ∈ (setup_args source_dir false).data := by
      rw [hd]
      simp [List.mem_append]
    rw [setup_args_data] at hmem
    simp [reset_arg, List.mem_append, hdash] at hmem

/-- Witness for `reset_substep_iff_force` at source directory `/src`. -/
theorem reset_substep_iff_force_witness :
    strContains (setup_args "/src" true) "yarn prisma reset -f" ∧
      ¬ strContains (setup_args "/src" false) "yarn prisma reset -f" :=
  ⟨(reset_substep_iff_force "/src").1,
   (reset_substep_iff_force "/src").2 (by decide)⟩

/-- C7 (code bug, evaluated at the failing input): with an absolute
`--from-tar` path the deploy dispatch performs no image-load invocation
at all — `load_images` sits inside the not-absolute branch — and goes
straight to the published-image start, whereas with a relative path the
archive is resolved against the working directory and loaded exactly
once before the published-image start. -/
theorem archive_mode_skips_load_for_absolute_path :
    deploy_dispatch none (some "/images.tar") false "/cwd" id =
      DeployOutcome.run [DeployEvent.startFromImage] ∧
    deploy_dispatch none (some "dist") false "/cwd" id =
      DeployOutcome.run
        [DeployEvent.loadImages "/cwd/dist", DeployEvent.startFromImage] := by
  constructor <;> rfl

/-- C8 counterexample: supplying both `--from-source` and `--from-tar`
is not rejected as a usage error; the dispatch silently runs the
from-source deployment and ignores the archive. -/
theorem mode_conflict_not_rejected :
    deploy_dispatch (some "/s") (some "/t") false "/cwd" id =
      DeployOutcome.run [DeployEvent.startFromSource "/s" false] ∧
    deploy_dispatch (some "/s") (some "/t") false "/cwd" id ≠
      DeployOutcome.usageError := by
  constructor
  · rfl
  · intro h
    simp [deploy_dispatch] at h

/-- C8 amended: at most one deployment mode is acted on per deploy
invocation, chosen by fixed precedence — `--from-source` first, then
`--from-tar`, then the published-image default — and no combination of
the two selectors is rejected as a usage error; a superfluous second
selector is silently ignored. -/
theorem single_mode_precedence (source_dir tar_dir : Option String)
    (force : Bool) (cwd : String) (canon : String → String) :
    (deploy_dispatch source_dir tar_dir force cwd canon ≠
      DeployOutcome.usageError) ∧
    (∀ d, source_dir = some d →
      deploy_dispatch source_dir tar_dir force cwd canon =
        DeployOutcome.run
          [DeployEvent.startFromSource
            (if is_absolute d then d else canon (join_path cwd d)) force]) ∧
    (∀ t, source_dir = none → tar_dir = some t →
      deploy_dispatch source_dir tar_dir force cwd canon =
        (if is_absolute t then DeployOutcome.run [DeployEvent.startFromImage]
         else DeployOutcome.run
           [DeployEvent.loadImages (canon (join_path cwd t)),
            DeployEvent.startFromImage])) ∧
    (source_dir = none → tar_dir = none →
      deploy_dispatch source_dir tar_dir force cwd canon =
        DeployOutcome.run [DeployEvent.startFromImage]) := by
  refine ⟨?_, ?_, ?_, ?_⟩
  · cases source_dir with
    | some d => simp [deploy_dispatch]
    | none =>
      cases tar_dir with
      | some t =>
        cases ht : is_absolute t <;> simp [deploy_dispatch, ht]
      | none => simp [deploy_dispatch]
  · intro d hd
    subst hd
    rfl
  · intro t hs ht
    subst hs
    subst ht
    rfl
  · intro hs ht
    subst hs
    subst ht
    rfl

/-- Witness for `single_mode_precedence`: with both selectors supplied
the from-source deployment runs. -/
theorem single_mode_precedence_witness :
    deploy_dispatch (some "/a") (some "/b") true "/cwd" id =
      DeployOutcome.run [DeployEvent.startFromSource "/a" true] := by
  have h := (single_mode_precedence (some "/a") (some "/b") true "/cwd"
    id).2.1 "/a" rfl
  simpa using h

/-- C9: the image-presence check probes the four required images in
their fixed order, stops at the first missing one — logging which and
probing none of the rest — and returns true, after a confirmation log,
exactly when every probe succeeds. -/
theorem images_check_short_circuit (probe : String → Option Bool) :
    ((check_images probe).1 = true ↔
      ∀ image ∈ images, image_exists probe image = true) ∧
    (image_exists probe "tower:0.2.3" = false →
      check_images probe =
        (false, ["tower:0.2.3"], ["tower:0.2.3 image is missing"])) ∧
    (image_exists probe "tower:0.2.3" = true →
      image_exists probe "prismagraphql/prisma:1.34" = false →
      check_images probe =
        (false, ["tower:0.2.3", "prismagraphql/prisma:1.34"],
         ["prismagraphql/prisma:1.34 image is missing"])) ∧
    (image_exists probe "tower:0.2.3" = true →
      image_exists probe "prismagraphql/prisma:1.34" = true →
      image_exists probe "postgres:10.3" = false →
      check_images probe =
        (false, ["tower:0.2.3", "prismagraphql/prisma:1.34", "postgres:10.3"],
         ["postgres:10.3 image is missing"])) ∧
    (image_exists probe "tower:0.2.3" = true →
      image_exists probe "prismagraphql/prisma:1.34" = true →
      image_exists probe "postgres:10.3" = true →
      image_exists probe "openresty/openresty:alpine" = false →
      check_images probe =
        (false, images, ["openresty/openresty:alpine image is missing"])) ∧
    (image_exists probe "tower:0.2.3" = true →
      image_exists probe "prismagraphql/prisma:1.34" = true →
      image_exists probe "postgres:10.3" = true →
      image_exists probe "openresty/openresty:alpine" = true →
      check_images probe = (true, images, ["all image exists"])) := by
  refine ⟨?_, ?_, ?_, ?_, ?_, ?_⟩ <;>
    [skip; intro h0; intro h0 h1; intro h0 h1 h2; intro h0 h1 h2 h3;
     intro h0 h1 h2 h3]
  · constructor
    · intro hres image himg
      by_contra hne
      have hfalse : image_exists probe image = false := by
        cases hx : image_exists probe image with
        | false => rfl
        | true => exact absurd hx hne
      fin_cases himg <;>
        [skip; skip; skip; skip] <;>
        · revert hres
          cases h0 : image_exists probe "tower:0.2.3" <;>
            cases h1 : image_exists probe "prismagraphql/prisma:1.34" <;>
            cases h2 : image_exists probe "postgres:10.3" <;>
            cases h3 : image_exists probe "openresty/openresty:alpine" <;>
            simp_all [check_images, check_imagesAux, images]
    · intro hall
      have h0 := hall "tower:0.2.3" (by simp [images])
      have h1 := hall "prismagraphql/prisma:1.34" (by simp [images])
      have h2 := hall "postgres:10.3" (by simp [images])
      have h3 := hall "openresty/openresty:alpine" (by simp [images])
      simp [check_images, check_imagesAux, images, h0, h1, h2, h3]
  · simp [check_images, check_imagesAux, images, h0]
  · simp [check_images, check_imagesAux, images, h0, h1]
  · simp [check_images, check_imagesAux, images, h0, h1, h2]
  · simp [check_images, check_imagesAux, images, h0, h1, h2, h3]
  · simp [check_images, check_imagesAux, images, h0, h1, h2, h3]

/-- Witness for `images_check_short_circuit`: a probe failing on the
migration-tool image stops after the second probe. -/
theorem images_check_short_circuit_witness :
    check_images
        (fun c => some (c = inspect_command "tower:0.2.3")) =
      (false, ["tower:0.2.3", "prismagraphql/prisma:1.34"],
       ["prismagraphql/prisma:1.34 image is missing"]) :=
  (images_check_short_circuit _).2.2.1 (by decide) (by decide)

end Tower
